import Mathlib

/-!
Verification model of the dialogue turn orchestrator in `src/api/roleplay.py`
(Korean-language roleplay trainer).

The model is a shallow embedding of the orchestration logic:

* the per-(team, scenario) slice of the `rp_conversation_logs` table becomes a
  `List Turn` (the turn ledger, append-only);
* the `rp_pre_recordings` table becomes a `List PreRec` inside `Db`;
* the external collaborators (Gemini classifier `run_analyst`, actor
  `run_actor`, ElevenLabs TTS `run_tts`, the `validate_player_session` and
  `load_scenario_from_db` lookups, and SQL `ORDER BY RANDOM()`) are modelled
  as oracles carried by `Env`;
* `handle_npc_response` and the `send_text` endpoint are translated
  function-by-function; the Python in-place mutation of the `parsed` dict is
  made explicit by returning the updated record, and the number of classifier
  and actor (renderer) invocations is recorded in ghost counters so the
  call-count claims can be stated.

All queries in the source filter by the same (team_id, scenario_id) pair, so
the model works directly on that pair's slice of the log.
-/

namespace Roleplay

/-- Speaker column of `rp_conversation_logs` (`'player'` / `'npc'`). -/
inductive Speaker
  | player
  | npc
deriving DecidableEq, Repr

/-- JSON scalar as it can appear in the `goal_achieved` field of the analyst
output.  Python distinguishes `True`, the string `'true'`, and numbers (where
`1 == True`), so the model keeps those shapes apart. -/
inductive GVal
  | jBool (b : Bool)
  | jStr (s : String)
  | jInt (n : Int)
deriving DecidableEq, Repr

/-- The analyst (classifier) decision record, i.e. the `parsed` dict produced
by `run_analyst` / `run_analyst_audio`.  Absent keys are `none`; the dict
`{"parse_error": True, "raw": ...}` produced on a JSON decode failure is the
record with `parse_error := true` and every other field absent. -/
structure AnalystOut where
  route : Option String := none
  category : Option String := none
  boundary : Option Int := none
  goal_achieved : Option GVal := none
  direction : Option String := none
  main_emotion : Option String := none
  audio_tags : Option String := none
  parse_error : Bool := false
deriving DecidableEq, Repr

/-- One row of `rp_conversation_logs` (the columns the orchestrator uses). -/
structure Turn where
  turn_number : Nat
  speaker : Speaker
  message_text : Option String := none
  player_user_id : Option Nat := none
  actor_line : Option String := none
  analyst_json : Option AnalystOut := none
  tts_audio_base64 : Option String := none
  pre_audio_url : Option String := none
deriving DecidableEq, Repr

/-- One row of `rp_pre_recordings`. -/
structure PreRec where
  scenario_id : Nat
  category : String
  cloudflare_url : Option String := none
  transcript : Option String := none
deriving DecidableEq, Repr

/-- Database state visible to the orchestrator beyond the conversation log. -/
structure Db where
  pre_recordings : List PreRec
deriving Repr

/-- Result row of `validate_player_session`. -/
structure PlayerInfo where
  team_id : Nat
  team_code : String
  session_status : String
deriving DecidableEq, Repr

/-- The scenario fields `handle_npc_response` actually reads
(from `load_scenario_from_db`). -/
structure Scenario where
  id : Nat
  npc_name : String
  voice_id : Option String := none
deriving DecidableEq, Repr

/-- One entry of the reconstructed conversation history
(`load_conversation_history`). -/
structure HTurn where
  role : String
  text : String
deriving DecidableEq, Repr

/-- Python truthiness of an optional string: `None` and `""` are falsy. -/
def optTruthy : Option String → Bool
  | none => false
  | some s => s ≠ ""

/-- Python `a or b` for an optional string `a` and a string default `b`. -/
def orEl (a : Option String) (b : String) : String :=
  match a with
  | some s => if s = "" then b else s
  | none => b

/-- External collaborators and lookups, modelled as oracles.  `rand` stands
for SQL `ORDER BY RANDOM()` (it receives the candidate-list length and yields
an arbitrary index); `actor` is `run_actor` (history, directive, student
input ↦ line text); `tts` is `run_tts` (`none` models synthesis failure);
`analyst` is `run_analyst` for the fixed scenario of this request; `player`
is the `validate_player_session` row; `scenario` is `load_scenario_from_db`. -/
structure Env where
  rand : Nat → Nat
  actor : List HTurn → AnalystOut → String → String
  tts : String → Option String
  analyst : List HTurn → String → AnalystOut
  player : Option PlayerInfo
  scenario : Option Scenario

/-- SQL `ORDER BY RANDOM() LIMIT 1` over a candidate list: some row of the
list when it is non-empty (which one is decided by the `rand` oracle),
no row otherwise. -/
def pick (rand : Nat → Nat) (l : List PreRec) : Option PreRec :=
  match l with
  | [] => none
  | _ :: _ => l.get? (rand l.length % l.length)

/-- Rows of `rp_pre_recordings` for a scenario and category
(the second query of `get_pre_audio_url`). -/
def preRows (db : Db) (sid : Nat) (cat : String) : List PreRec :=
  db.pre_recordings.filter (fun r => decide (r.scenario_id = sid ∧ r.category = cat))

/-- Rows of `rp_pre_recordings` for a scenario and category that carry a
non-null `cloudflare_url` (the first query of `get_pre_audio_url`). -/
def preRowsWithUrl (db : Db) (sid : Nat) (cat : String) : List PreRec :=
  db.pre_recordings.filter
    (fun r => decide (r.scenario_id = sid ∧ r.category = cat ∧ r.cloudflare_url ≠ none))

/-- `get_pre_audio_url(scenario_id, category, conn)`: random variant with an
audio URL, else a random transcript-only variant, else `(None, None)`. -/
def get_pre_audio_url (rand : Nat → Nat) (db : Db) (sid : Nat) (cat : String) :
    Option String × Option String :=
  match pick rand (preRowsWithUrl db sid cat) with
  | some r => (r.cloudflare_url, r.transcript)
  | none =>
    match pick rand (preRows db sid cat) with
    | some r => (none, r.transcript)
    | none => (none, none)

/-- The shared pool behind `get_boundary_pre`: every `rp_pre_recordings` row
with category `boundary_pre`, across all scenarios. -/
def boundaryPool (db : Db) : List PreRec :=
  db.pre_recordings.filter (fun r => decide (r.category = "boundary_pre"))

/-- `get_boundary_pre(conn)`: random row of the shared `boundary_pre` pool,
else the literal fallback line. -/
def get_boundary_pre (rand : Nat → Nat) (db : Db) : Option String × Option String :=
  match pick rand (boundaryPool db) with
  | some r => (r.cloudflare_url, r.transcript)
  | none => (none, some "네?")

/-- The audio/transcript pair used by the tier-0 boundary branch: the
scenario's own `boundary_pre` catalog entry, falling back to the shared
pool (`get_boundary_pre`) when no audio URL came back. -/
def boundaryPrePair (env : Env) (db : Db) (scenario_id : Nat) :
    Option String × Option String :=
  let pr := get_pre_audio_url env.rand db scenario_id "boundary_pre"
  if optTruthy pr.1 then pr else get_boundary_pre env.rand db

/-- `get_current_turn`: `COUNT(*)` of rows with `speaker = 'player'`. -/
def get_current_turn (ledger : List Turn) : Nat :=
  (ledger.filter (fun t => t.speaker == Speaker.player)).length

/-- Loop body of `get_total_violations`: skip a row with no analyst record
(SQL NULL), increment when the record has `boundary == 1`. -/
def violStep (total : Nat) (t : Turn) : Nat :=
  match t.analyst_json with
  | none => total
  | some aj => if aj.boundary = some 1 then total + 1 else total

/-- `get_total_violations`: loop over the player rows (in turn order),
incrementing for every row whose stored analyst record has `boundary == 1`. -/
def get_total_violations (ledger : List Turn) : Nat :=
  let rows := ledger.filter (fun t => t.speaker == Speaker.player)
  rows.foldl violStep 0

/-- The history entry `load_conversation_history` builds for one log row:
player rows carry `message_text or ''`, NPC rows carry
`actor_line or message_text or ''`. -/
def histEntry (t : Turn) : Option HTurn :=
  match t.speaker with
  | .player => some ⟨"player", orEl t.message_text ""⟩
  | .npc => some ⟨"npc", orEl t.actor_line (orEl t.message_text "")⟩

/-- `load_conversation_history`: the log rows in turn order, mapped through
`histEntry`. -/
def load_conversation_history (ledger : List Turn) : List HTurn :=
  ledger.filterMap histEntry

/-- `save_turn`: one `INSERT` into `rp_conversation_logs`. -/
def save_turn (ledger : List Turn) (t : Turn) : List Turn :=
  ledger ++ [t]

/-- The direction string written by the tier-2 (Exit) branch of
`handle_npc_response` (an f-string over the violation count). -/
def exitDirection (n : Nat) : String :=
  "boundary Exit: 학생이 " ++ toString n ++ "회 이탈. 대화를 끝내는 대사를 하라. NPC 성격에 맞게."

/-- The direction string written by the tier-1 (boundary DYN) branch. -/
def boundaryDynDirection (n : Nat) : String :=
  "boundary DYN: 학생이 " ++ toString n ++ "회 이탈. 되묻기/저의확인/목표환기 중 상황에 맞게. 불쾌한 감정으로."

/-- The closing-line direction prepended by the goal-achievement policy. -/
def farewellDirection : String :=
  "대화 목표가 달성되었다. 자연스러운 마무리 인사를 하라. NPC 성격에 맞게 따뜻하게 마무리."

/-- Lingering-effect annotation used when three or more violations are on
record and the current turn is clean. -/
def aftereffect3 : String :=
  "직전에 불쾌한 상황이 있었다. 불쾌하고 사무적인 톤으로. [sigh] [flatly] 활용."

/-- Lingering-effect annotation used when one or two violations are on record
and the current turn is clean. -/
def aftereffect1 : String :=
  "직전에 당황스러운 상황이 있었다. 약간 머뭇거리는 톤으로. [hesitates] [pause] 활용."

/-- The test `goal_achieved is True or goal_achieved == 'true'` performed at
the goal-override site of `handle_npc_response`. -/
def goalIs (p : AnalystOut) : Bool :=
  p.goal_achieved = some (GVal.jBool true) || p.goal_achieved = some (GVal.jStr "true")

/-- The test `parsed.get('goal_achieved', False) in (True, 'true')` performed
at the `[GOAL_ACHIEVED]` marker site and in the final result dict.  Python's
`1 == True` makes the integer 1 pass this membership test as well. -/
def goalIn775 (p : AnalystOut) : Bool :=
  goalIs p || p.goal_achieved = some (GVal.jInt 1)

/-- Which branch of `handle_npc_response` produced the NPC turn
(instrumentation; the observable fields are computed independently of it). -/
inductive RouteTaken
  | exitDyn
  | boundaryDyn
  | boundaryPre
  | prePath
  | dynPath
  | noPath
deriving DecidableEq, Repr

/-- The result dict returned by `handle_npc_response`.  `goal_achieved` is
`none` when the dict has no such key (the early boundary return). -/
structure HandleResult where
  actor_line : Option String := none
  tts_audio_b64 : Option String := none
  pre_audio_url : Option String := none
  pre_transcript : Option String := none
  is_exit : Bool := false
  npc_name : String
  goal_achieved : Option Bool := none
deriving DecidableEq, Repr

/-- Full effect of one `handle_npc_response` call: its result dict, the
`parsed` record after the in-place mutations, the NPC rows it appended via
`save_turn`, and the number of `run_actor` (renderer) invocations. -/
structure NpcStep where
  res : HandleResult
  parsed : AnalystOut
  npcTurns : List Turn
  actorCalls : Nat
  routeTaken : RouteTaken
deriving Repr

/-- The `boundary == 1` cascade of `handle_npc_response` (source order:
tier 2 `>= 4` Exit, then tier 1 `>= 3` boundary DYN, then tier 0 canned
boundary PRE), applied to the violation count recomputed from the ledger
that already contains the current player turn. -/
def boundaryStep (env : Env) (db : Db) (scenario : Scenario)
    (conversation_history : List HTurn) (parsed : AnalystOut)
    (student_input : String) (scenario_id : Nat) (new_turn : Nat)
    (total_violations : Nat) : NpcStep :=
  let npc_name := scenario.npc_name
  if total_violations ≥ 4 then
    -- Exit DYN: closing line, terminal Exit marker
    let parsed1 : AnalystOut :=
      { parsed with
        direction := some (exitDirection total_violations),
        main_emotion := some "불쾌",
        audio_tags := some "[sigh][frustrated]" }
    let actor_line := env.actor conversation_history parsed1 student_input
    let tts_b64 := if actor_line ≠ "" then env.tts actor_line else none
    let t : Turn :=
      { turn_number := new_turn, speaker := .npc,
        message_text := some "[EXIT]",
        actor_line := some actor_line,
        tts_audio_base64 := tts_b64 }
    { res :=
        { actor_line := some actor_line, tts_audio_b64 := tts_b64,
          is_exit := true, npc_name := npc_name },
      parsed := parsed1, npcTurns := [t], actorCalls := 1,
      routeTaken := .exitDyn }
  else if total_violations ≥ 3 then
    -- Boundary DYN: clarification / intent / goal-reference line
    let parsed1 : AnalystOut :=
      { parsed with
        direction := some (boundaryDynDirection total_violations),
        main_emotion := some "불쾌",
        audio_tags := some "[frustrated][sigh]" }
    let actor_line := env.actor conversation_history parsed1 student_input
    let tts_b64 := if actor_line ≠ "" then env.tts actor_line else none
    let t : Turn :=
      { turn_number := new_turn, speaker := .npc,
        actor_line := some actor_line,
        tts_audio_base64 := tts_b64 }
    { res :=
        { actor_line := some actor_line, tts_audio_b64 := tts_b64,
          is_exit := false, npc_name := npc_name },
      parsed := parsed1, npcTurns := [t], actorCalls := 1,
      routeTaken := .boundaryDyn }
  else
    -- Boundary PRE: canned short reaction
    let pr := boundaryPrePair env db scenario_id
    let t : Turn :=
      { turn_number := new_turn, speaker := .npc,
        message_text := some "[BOUNDARY_PRE]",
        actor_line := some (orEl pr.2 "네?"),
        pre_audio_url := pr.1 }
    { res :=
        { pre_audio_url := pr.1, pre_transcript := pr.2,
          is_exit := false, npc_name := npc_name },
      parsed := parsed, npcTurns := [t], actorCalls := 0,
      routeTaken := .boundaryPre }

/-- The lingering-effect annotation of the clean (`boundary = 0`) flow:
when violations are on record, a tone instruction is prepended to the
renderer direction. -/
def applyAftereffect (parsed : AnalystOut) (total_violations : Nat) : AnalystOut :=
  if total_violations > 0 then
    let aftereffect :=
      if total_violations ≥ 3 then aftereffect3
      else if total_violations ≥ 1 then aftereffect1
      else ""
    if aftereffect ≠ "" ∧ optTruthy parsed.direction then
      { parsed with direction := some (aftereffect ++ " " ++ parsed.direction.getD "") }
    else if aftereffect ≠ "" then
      { parsed with direction := some aftereffect }
    else parsed
  else parsed

/-- The goal-achievement override of the clean flow: prepend the farewell
direction, force the route to `DYN`, and default the audio tags to
`[warmly]` when absent. -/
def applyGoal (parsed : AnalystOut) : AnalystOut :=
  if goalIs parsed then
    let d :=
      if optTruthy parsed.direction then
        some (farewellDirection ++ " " ++ parsed.direction.getD "")
      else some farewellDirection
    let p1 : AnalystOut := { parsed with direction := d, route := some "DYN" }
    if optTruthy p1.audio_tags then p1 else { p1 with audio_tags := some "[warmly]" }
  else parsed

/-- The route dispatch at the end of the clean flow: canned `PRE` lookup,
generated `DYN` rendering, or no NPC turn for any other route value. -/
def dispatchRoute (env : Env) (db : Db) (scenario : Scenario)
    (conversation_history : List HTurn) (parsed2 : AnalystOut)
    (student_input : String) (scenario_id : Nat) (new_turn : Nat) : NpcStep :=
  let npc_name := scenario.npc_name
  if parsed2.route = some "PRE" then
    let pr := get_pre_audio_url env.rand db scenario_id (parsed2.category.getD "")
    let t : Turn :=
      { turn_number := new_turn, speaker := .npc,
        message_text := some ("[PRE:" ++ parsed2.category.getD "" ++ "]"),
        actor_line := pr.2,
        pre_audio_url := pr.1 }
    { res :=
        { pre_audio_url := pr.1, pre_transcript := pr.2,
          is_exit := false, npc_name := npc_name,
          goal_achieved := some (goalIn775 parsed2) },
      parsed := parsed2, npcTurns := [t], actorCalls := 0,
      routeTaken := .prePath }
  else if parsed2.route = some "DYN" then
    let actor_line := env.actor conversation_history parsed2 student_input
    let tts_b64 := if actor_line ≠ "" then env.tts actor_line else none
    let npc_message_text :=
      if goalIn775 parsed2 then some "[GOAL_ACHIEVED]" else none
    let t : Turn :=
      { turn_number := new_turn, speaker := .npc,
        message_text := npc_message_text,
        actor_line := some actor_line,
        tts_audio_base64 := tts_b64 }
    { res :=
        { actor_line := some actor_line, tts_audio_b64 := tts_b64,
          is_exit := false, npc_name := npc_name,
          goal_achieved := some (goalIn775 parsed2) },
      parsed := parsed2, npcTurns := [t], actorCalls := 1,
      routeTaken := .dynPath }
  else
    { res :=
        { is_exit := false, npc_name := npc_name,
          goal_achieved := some (goalIn775 parsed2) },
      parsed := parsed2, npcTurns := [], actorCalls := 0,
      routeTaken := .noPath }

/-- `handle_npc_response`: boundary check against the recomputed violation
count (the ledger passed in already contains the just-saved player turn, as
in the source); on a clean turn, lingering-effect annotation, then
goal-achievement override, then route dispatch. -/
def handle_npc_response (env : Env) (db : Db) (scenario : Scenario)
    (conversation_history : List HTurn) (ledger : List Turn)
    (parsed : AnalystOut) (student_input : String)
    (scenario_id : Nat) (new_turn : Nat) : NpcStep :=
  if parsed.boundary.getD 0 = 1 then
    boundaryStep env db scenario conversation_history parsed student_input
      scenario_id new_turn (get_total_violations ledger)
  else
    dispatchRoute env db scenario conversation_history
      (applyGoal (applyAftereffect parsed (get_total_violations ledger)))
      student_input scenario_id new_turn

/-- Error outcomes of the `send_text` endpoint. -/
inductive SendErr
  | unauthorized
  | sessionNotActive
  | turnLimitReached
  | scenarioNotFound
deriving DecidableEq, Repr

/-- The success JSON of `send_text` (latency fields omitted). -/
structure SendOk where
  turn_number : Nat
  analyst_response : AnalystOut
  actor_line : Option String
  tts_audio_base64 : Option String
  pre_audio_url : Option String
  pre_transcript : Option String
  is_exit : Bool
  npc_name : String
  turns_remaining : Nat
  goal_achieved : Bool
deriving DecidableEq, Repr

/-- Full effect of one `send_text` request: the HTTP outcome, the log state
after the request, ghost counters for classifier and renderer calls, and the
`handle_npc_response` branch taken (`noPath` also on error returns, where the
NPC stage never ran). -/
structure SendOut where
  resp : Except SendErr SendOk
  ledger : List Turn
  classifierCalls : Nat
  rendererCalls : Nat
  routeTaken : RouteTaken := .noPath
deriving Repr

/-- The player turn saved by step 6 of `send_text` (the full classifier
record is serialized into `analyst_json` at this point, before any later
mutation of the `parsed` dict). -/
def corePlayerTurn (env : Env) (ledger : List Turn) (user_id : Nat)
    (student_input : String) : Turn :=
  { turn_number := get_current_turn ledger + 1, speaker := .player,
    message_text := some student_input,
    player_user_id := some user_id,
    analyst_json := some (env.analyst (load_conversation_history ledger) student_input) }

/-- Step 7 of `send_text`: `handle_npc_response` applied to the ledger that
already contains the player turn, with the history loaded before the save. -/
def coreStep (env : Env) (db : Db) (ledger : List Turn)
    (user_id scenario_id : Nat) (student_input : String)
    (scenario : Scenario) : NpcStep :=
  handle_npc_response env db scenario (load_conversation_history ledger)
    (save_turn ledger (corePlayerTurn env ledger user_id student_input))
    (env.analyst (load_conversation_history ledger) student_input)
    student_input scenario_id (get_current_turn ledger + 1)

/-- The success path of `send_text` after all preconditions passed:
load history, classify, save the player turn, produce the NPC response,
assemble the JSON reply. -/
def send_text_core (env : Env) (db : Db) (ledger : List Turn)
    (user_id : Nat) (scenario_id : Nat) (student_input : String)
    (scenario : Scenario) : SendOut :=
  let new_turn := get_current_turn ledger + 1
  let step := coreStep env db ledger user_id scenario_id student_input scenario
  { resp := .ok
      { turn_number := new_turn,
        analyst_response := step.parsed,
        actor_line := step.res.actor_line,
        tts_audio_base64 := step.res.tts_audio_b64,
        pre_audio_url := step.res.pre_audio_url,
        pre_transcript := step.res.pre_transcript,
        is_exit := step.res.is_exit,
        npc_name := step.res.npc_name,
        turns_remaining := 8 - new_turn,
        goal_achieved := (step.res.goal_achieved).getD false },
    ledger := save_turn ledger (corePlayerTurn env ledger user_id student_input) ++ step.npcTurns,
    classifierCalls := 1,
    rendererCalls := step.actorCalls,
    routeTaken := step.routeTaken }

/-- The `send_text` endpoint: membership check, session-status check,
turn-limit check, scenario load, then the success path.  Error returns leave
the log untouched and call neither the classifier nor the renderer. -/
def send_text (env : Env) (db : Db) (ledger : List Turn)
    (user_id : Nat) (scenario_id : Nat) (student_input : String) : SendOut :=
  match env.player with
  | none =>
    { resp := .error .unauthorized, ledger := ledger,
      classifierCalls := 0, rendererCalls := 0 }
  | some player =>
    if player.session_status ≠ "active" then
      { resp := .error .sessionNotActive, ledger := ledger,
        classifierCalls := 0, rendererCalls := 0 }
    else if get_current_turn ledger ≥ 8 then
      { resp := .error .turnLimitReached, ledger := ledger,
        classifierCalls := 0, rendererCalls := 0 }
    else
      match env.scenario with
      | none =>
        { resp := .error .scenarioNotFound, ledger := ledger,
          classifierCalls := 0, rendererCalls := 0 }
      | some scenario =>
        send_text_core env db ledger user_id scenario_id student_input scenario

/-! ### Spec-side comparison definitions -/

/-- Whether a row's stored classification flagged a boundary event
(`analyst_json` present with `boundary == 1`). -/
def boundaryFlagged (t : Turn) : Bool :=
  match t.analyst_json with
  | some aj => aj.boundary == some 1
  | none => false

/-- Modelled from the spec's words: the boundary-violation count of a
(team, scenario) pair is "the count of player turns whose classification
flagged a boundary event".  Compared with `get_total_violations`, the
loop translated from the source. -/
def ledgerBoundaryCount (ledger : List Turn) : Nat :=
  ledger.countP (fun t => t.speaker == Speaker.player && boundaryFlagged t)

/-- Total form of `histEntry` (both speakers produce an entry). -/
def histEntryTotal (t : Turn) : HTurn :=
  match t.speaker with
  | .player => ⟨"player", orEl t.message_text ""⟩
  | .npc => ⟨"npc", orEl t.actor_line (orEl t.message_text "")⟩

/-! ### Concrete fixtures used by witnesses and counterexamples -/

/-- An empty pre-recording catalog. -/
def dbEmpty : Db := ⟨[]⟩

/-- A catalog holding only one shared `boundary_pre` row of another
scenario (so per-scenario lookups for scenario 7 find nothing). -/
def dbShared : Db :=
  ⟨[{ scenario_id := 99, category := "boundary_pre", transcript := some "저기요?" }]⟩

/-- A catalog holding one `menu` variant (with audio) for scenario 7. -/
def dbCat : Db :=
  ⟨[{ scenario_id := 7, category := "menu",
      cloudflare_url := some "https://cdn/a.mp3", transcript := some "메뉴 여기요" }]⟩

/-- A membership row with an active session. -/
def wPlayer : PlayerInfo := { team_id := 1, team_code := "A", session_status := "active" }

/-- A concrete scenario record. -/
def wScenario : Scenario := { id := 7, npc_name := "수지" }

/-- A concrete environment whose classifier always answers `a`. -/
def mkEnv (a : AnalystOut) : Env :=
  { rand := fun _ => 0,
    actor := fun _ _ _ => "연기대사",
    tts := fun _ => none,
    analyst := fun _ _ => a,
    player := some wPlayer,
    scenario := some wScenario }

/-- A player turn whose stored classification flagged a boundary event. -/
def bTurn (n : Nat) : Turn :=
  { turn_number := n, speaker := .player, message_text := some "x",
    analyst_json := some { boundary := some 1, route := some "PRE", category := some "boundary_pre" } }

/-- An NPC turn with a stored line. -/
def nTurn (n : Nat) : Turn :=
  { turn_number := n, speaker := .npc, actor_line := some "응답" }

/-- A ledger holding two prior boundary violations. -/
def ledger2 : List Turn := [bTurn 1, nTurn 1, bTurn 2, nTurn 2]

/-- A ledger holding three prior boundary violations. -/
def ledger3 : List Turn := [bTurn 1, nTurn 1, bTurn 2, nTurn 2, bTurn 3, nTurn 3]

/-- A ledger holding four prior boundary violations. -/
def ledger4 : List Turn :=
  [bTurn 1, nTurn 1, bTurn 2, nTurn 2, bTurn 3, nTurn 3, bTurn 4, nTurn 4]

/-- A ledger already holding eight player turns (turn cap reached). -/
def fullLedger : List Turn := (List.range 8).map (fun i => bTurn (i + 1))

/-- Classifier output: canned route with a boundary flag. -/
def pBound : AnalystOut :=
  { route := some "PRE", category := some "greeting", boundary := some 1,
    goal_achieved := some (.jBool false) }

/-- Classifier output: boundary flag and goal achievement on the same turn. -/
def pBoundGoal : AnalystOut :=
  { route := some "PRE", category := some "greeting", boundary := some 1,
    goal_achieved := some (.jBool true) }

/-- Classifier output: the parse-failure record
`{"parse_error": True, "raw": ...}`. -/
def pErr : AnalystOut := { parse_error := true }

/-- Classifier output: clean canned route for category `menu`. -/
def pPre : AnalystOut :=
  { route := some "PRE", category := some "menu", boundary := some 0,
    goal_achieved := some (.jBool false) }

/-- Classifier output: clean canned route with goal achieved. -/
def pGoal : AnalystOut :=
  { route := some "PRE", category := some "greeting", boundary := some 0,
    goal_achieved := some (.jBool true) }

/-- Classifier output: clean turn with no recognizable route decision. -/
def pNoRoute : AnalystOut :=
  { boundary := some 0, goal_achieved := some (.jBool false) }

/-- An NPC ledger row carrying both a synthetic marker and a stored line
(the shape written by the Exit branch). -/
def eTurn : Turn :=
  { turn_number := 2, speaker := .npc, message_text := some "[EXIT]",
    actor_line := some "그만 갈게요" }

/-- An NPC ledger row whose `actor_line` is SQL NULL, as written by the
canned route when the catalog has no row for the category. -/
def mTurn : Turn := { turn_number := 1, speaker := .npc, message_text := some "[PRE:menu]" }

/-! ### Shared lemmas -/

theorem boundary_getD_one (p : AnalystOut) :
    p.boundary.getD 0 = 1 ↔ p.boundary = some 1 := by
  cases h : p.boundary <;> simp [Option.getD]

theorem violStep_eq (total : Nat) (t : Turn) :
    violStep total t = total + (if boundaryFlagged t then 1 else 0) := by
  unfold violStep boundaryFlagged
  cases t.analyst_json with
  | none => simp
  | some aj =>
    by_cases h : aj.boundary = some 1 <;> simp [h]

theorem foldl_violStep (rows : List Turn) (acc : Nat) :
    rows.foldl violStep acc = acc + rows.countP boundaryFlagged := by
  induction rows generalizing acc with
  | nil => simp
  | cons t ts ih =>
    rw [List.foldl_cons, ih, violStep_eq, List.countP_cons]
    by_cases h : boundaryFlagged t
    · simp [h]
      omega
    · simp [h]

theorem get_total_violations_eq_count (ledger : List Turn) :
    get_total_violations ledger = ledgerBoundaryCount ledger := by
  unfold get_total_violations ledgerBoundaryCount
  rw [foldl_violStep, List.countP_filter]
  simp [Bool.and_comm]

theorem ledgerBoundaryCount_append (l l' : List Turn) :
    ledgerBoundaryCount (l ++ l') = ledgerBoundaryCount l + ledgerBoundaryCount l' := by
  unfold ledgerBoundaryCount
  exact List.countP_append _ _ _

theorem get_total_violations_append (ledger : List Turn) (t : Turn) :
    get_total_violations (ledger ++ [t]) =
      get_total_violations ledger +
        (if t.speaker == Speaker.player && boundaryFlagged t then 1 else 0) := by
  rw [get_total_violations_eq_count, get_total_violations_eq_count,
    ledgerBoundaryCount_append]
  unfold ledgerBoundaryCount
  by_cases h : (t.speaker == Speaker.player && boundaryFlagged t) = true <;>
    simp [List.countP_cons, h]

theorem get_total_violations_npc_append (ledger : List Turn) (ts : List Turn)
    (h : ∀ t ∈ ts, t.speaker = Speaker.npc) :
    get_total_violations (ledger ++ ts) = get_total_violations ledger := by
  rw [get_total_violations_eq_count, get_total_violations_eq_count,
    ledgerBoundaryCount_append]
  have : ledgerBoundaryCount ts = 0 := by
    unfold ledgerBoundaryCount
    rw [List.countP_eq_zero]
    intro t ht
    simp [h t ht]
  omega

theorem send_text_eq_core (env : Env) (db : Db) (ledger : List Turn)
    (uid sid : Nat) (input : String) (p : PlayerInfo) (sc : Scenario)
    (hp : env.player = some p) (hs : p.session_status = "active")
    (hlim : get_current_turn ledger < 8) (hsc : env.scenario = some sc) :
    send_text env db ledger uid sid input =
      send_text_core env db ledger uid sid input sc := by
  unfold send_text
  rw [hp, hsc]
  simp [hs, Nat.not_le.mpr hlim]

theorem handle_of_boundary (env : Env) (db : Db) (sc : Scenario)
    (history : List HTurn) (ledger : List Turn) (parsed : AnalystOut)
    (input : String) (sid nt : Nat) (hb : parsed.boundary = some 1) :
    handle_npc_response env db sc history ledger parsed input sid nt =
      boundaryStep env db sc history parsed input sid nt
        (get_total_violations ledger) := by
  unfold handle_npc_response
  simp [hb]

theorem handle_of_clean (env : Env) (db : Db) (sc : Scenario)
    (history : List HTurn) (ledger : List Turn) (parsed : AnalystOut)
    (input : String) (sid nt : Nat) (hb : parsed.boundary ≠ some 1) :
    handle_npc_response env db sc history ledger parsed input sid nt =
      dispatchRoute env db sc history
        (applyGoal (applyAftereffect parsed (get_total_violations ledger)))
        input sid nt := by
  unfold handle_npc_response
  rw [if_neg]
  rw [boundary_getD_one]
  exact hb

theorem boundaryStep_exit_spec (env : Env) (db : Db) (sc : Scenario)
    (history : List HTurn) (parsed : AnalystOut) (input : String)
    (sid nt tv : Nat) (hv : 4 ≤ tv) :
    (boundaryStep env db sc history parsed input sid nt tv).res.is_exit = true ∧
    (boundaryStep env db sc history parsed input sid nt tv).actorCalls = 1 ∧
    (boundaryStep env db sc history parsed input sid nt tv).parsed =
      { parsed with
          direction := some (exitDirection tv),
          main_emotion := some "불쾌",
          audio_tags := some "[sigh][frustrated]" } ∧
    (boundaryStep env db sc history parsed input sid nt tv).npcTurns.map
      Turn.message_text = [some "[EXIT]"] ∧
    (boundaryStep env db sc history parsed input sid nt tv).res.goal_achieved = none ∧
    (boundaryStep env db sc history parsed input sid nt tv).routeTaken =
      RouteTaken.exitDyn := by
  unfold boundaryStep
  simp [hv]

theorem boundaryStep_bdyn_spec (env : Env) (db : Db) (sc : Scenario)
    (history : List HTurn) (parsed : AnalystOut) (input : String)
    (sid nt tv : Nat) (hv4 : ¬ 4 ≤ tv) (hv3 : 3 ≤ tv) :
    (boundaryStep env db sc history parsed input sid nt tv).res.is_exit = false ∧
    (boundaryStep env db sc history parsed input sid nt tv).actorCalls = 1 ∧
    (boundaryStep env db sc history parsed input sid nt tv).parsed =
      { parsed with
          direction := some (boundaryDynDirection tv),
          main_emotion := some "불쾌",
          audio_tags := some "[frustrated][sigh]" } ∧
    (boundaryStep env db sc history parsed input sid nt tv).npcTurns.map
      Turn.message_text = [none] ∧
    (boundaryStep env db sc history parsed input sid nt tv).res.goal_achieved = none ∧
    (boundaryStep env db sc history parsed input sid nt tv).routeTaken =
      RouteTaken.boundaryDyn := by
  unfold boundaryStep
  simp [hv4, hv3]

theorem boundaryStep_bpre_spec (env : Env) (db : Db) (sc : Scenario)
    (history : List HTurn) (parsed : AnalystOut) (input : String)
    (sid nt tv : Nat) (hv : tv < 3) :
    (boundaryStep env db sc history parsed input sid nt tv).res.is_exit = false ∧
    (boundaryStep env db sc history parsed input sid nt tv).actorCalls = 0 ∧
    (boundaryStep env db sc history parsed input sid nt tv).parsed = parsed ∧
    (boundaryStep env db sc history parsed input sid nt tv).npcTurns =
      [{ turn_number := nt, speaker := .npc,
         message_text := some "[BOUNDARY_PRE]",
         actor_line := some (orEl (boundaryPrePair env db sid).2 "네?"),
         pre_audio_url := (boundaryPrePair env db sid).1 }] ∧
    (boundaryStep env db sc history parsed input sid nt tv).res.pre_transcript =
      (boundaryPrePair env db sid).2 ∧
    (boundaryStep env db sc history parsed input sid nt tv).res.pre_audio_url =
      (boundaryPrePair env db sid).1 ∧
    (boundaryStep env db sc history parsed input sid nt tv).res.goal_achieved = none ∧
    (boundaryStep env db sc history parsed input sid nt tv).routeTaken =
      RouteTaken.boundaryPre := by
  have h4 : ¬ 4 ≤ tv := by omega
  have h3 : ¬ 3 ≤ tv := by omega
  unfold boundaryStep
  simp [h4, h3]

theorem applyAftereffect_fields (parsed : AnalystOut) (tv : Nat) :
    (applyAftereffect parsed tv).route = parsed.route ∧
    (applyAftereffect parsed tv).category = parsed.category ∧
    (applyAftereffect parsed tv).boundary = parsed.boundary ∧
    (applyAftereffect parsed tv).goal_achieved = parsed.goal_achieved ∧
    (applyAftereffect parsed tv).audio_tags = parsed.audio_tags ∧
    (applyAftereffect parsed tv).main_emotion = parsed.main_emotion := by
  simp only [applyAftereffect]
  split_ifs <;> simp

theorem applyAftereffect_zero (parsed : AnalystOut) :
    applyAftereffect parsed 0 = parsed := by
  simp [applyAftereffect]

theorem applyGoal_of_goal (parsed : AnalystOut) (hg : goalIs parsed = true) :
    (applyGoal parsed).route = some "DYN" ∧
    (∃ rest, (applyGoal parsed).direction = some (farewellDirection ++ rest)) ∧
    (optTruthy parsed.audio_tags = false →
      (applyGoal parsed).audio_tags = some "[warmly]") ∧
    (optTruthy parsed.audio_tags = true →
      (applyGoal parsed).audio_tags = parsed.audio_tags) ∧
    (applyGoal parsed).goal_achieved = parsed.goal_achieved ∧
    (applyGoal parsed).category = parsed.category := by
  unfold applyGoal
  rw [hg]
  by_cases hd : optTruthy parsed.direction = true <;>
    by_cases ha : optTruthy parsed.audio_tags = true <;>
    simp [hd, ha]
  · exact ⟨" " ++ parsed.direction.getD "", by rw [String.append_assoc]⟩
  · exact ⟨" " ++ parsed.direction.getD "", by rw [String.append_assoc]⟩
  · exact ⟨"", by rw [String.append_empty]⟩
  · exact ⟨"", by rw [String.append_empty]⟩

theorem applyGoal_of_not_goal (parsed : AnalystOut) (hg : goalIs parsed = false) :
    applyGoal parsed = parsed := by
  simp [applyGoal, hg]

theorem dispatchRoute_pre (env : Env) (db : Db) (sc : Scenario)
    (history : List HTurn) (parsed2 : AnalystOut) (input : String)
    (sid nt : Nat) (hr : parsed2.route = some "PRE") :
    dispatchRoute env db sc history parsed2 input sid nt =
      { res :=
          { pre_audio_url := (get_pre_audio_url env.rand db sid (parsed2.category.getD "")).1,
            pre_transcript := (get_pre_audio_url env.rand db sid (parsed2.category.getD "")).2,
            is_exit := false, npc_name := sc.npc_name,
            goal_achieved := some (goalIn775 parsed2) },
        parsed := parsed2,
        npcTurns :=
          [{ turn_number := nt, speaker := .npc,
             message_text := some ("[PRE:" ++ parsed2.category.getD "" ++ "]"),
             actor_line := (get_pre_audio_url env.rand db sid (parsed2.category.getD "")).2,
             pre_audio_url := (get_pre_audio_url env.rand db sid (parsed2.category.getD "")).1 }],
        actorCalls := 0, routeTaken := .prePath } := by
  unfold dispatchRoute
  simp [hr]

theorem dispatchRoute_dyn (env : Env) (db : Db) (sc : Scenario)
    (history : List HTurn) (parsed2 : AnalystOut) (input : String)
    (sid nt : Nat) (hr : parsed2.route = some "DYN") :
    dispatchRoute env db sc history parsed2 input sid nt =
      { res :=
          { actor_line := some (env.actor history parsed2 input),
            tts_audio_b64 :=
              (if env.actor history parsed2 input ≠ "" then
                env.tts (env.actor history parsed2 input) else none),
            is_exit := false, npc_name := sc.npc_name,
            goal_achieved := some (goalIn775 parsed2) },
        parsed := parsed2,
        npcTurns :=
          [{ turn_number := nt, speaker := .npc,
             message_text :=
               (if goalIn775 parsed2 then some "[GOAL_ACHIEVED]" else none),
             actor_line := some (env.actor history parsed2 input),
             tts_audio_base64 :=
               (if env.actor history parsed2 input ≠ "" then
                 env.tts (env.actor history parsed2 input) else none) }],
        actorCalls := 1, routeTaken := .dynPath } := by
  unfold dispatchRoute
  simp [hr]

theorem dispatchRoute_none (env : Env) (db : Db) (sc : Scenario)
    (history : List HTurn) (parsed2 : AnalystOut) (input : String)
    (sid nt : Nat) (hr1 : parsed2.route ≠ some "PRE")
    (hr2 : parsed2.route ≠ some "DYN") :
    dispatchRoute env db sc history parsed2 input sid nt =
      { res :=
          { is_exit := false, npc_name := sc.npc_name,
            goal_achieved := some (goalIn775 parsed2) },
        parsed := parsed2, npcTurns := [], actorCalls := 0,
        routeTaken := .noPath } := by
  unfold dispatchRoute
  simp [hr1, hr2]

theorem handle_shape (env : Env) (db : Db) (sc : Scenario)
    (history : List HTurn) (ledger : List Turn) (parsed : AnalystOut)
    (input : String) (sid nt : Nat) :
    (handle_npc_response env db sc history ledger parsed input sid nt).npcTurns.length ≤ 1 ∧
    (∀ t ∈ (handle_npc_response env db sc history ledger parsed input sid nt).npcTurns,
      t.speaker = Speaker.npc) ∧
    (handle_npc_response env db sc history ledger parsed input sid nt).actorCalls ≤ 1 ∧
    ((handle_npc_response env db sc history ledger parsed input sid nt).routeTaken =
        RouteTaken.boundaryPre ∨
      (handle_npc_response env db sc history ledger parsed input sid nt).routeTaken =
        RouteTaken.prePath →
      (handle_npc_response env db sc history ledger parsed input sid nt).actorCalls = 0) := by
  unfold handle_npc_response boundaryStep dispatchRoute
  split_ifs <;> simp

theorem drop_save (ledger : List Turn) (t : Turn) (ts : List Turn) :
    (save_turn ledger t ++ ts).drop (ledger.length + 1) = ts := by
  have h : (save_turn ledger t).length = ledger.length + 1 := by
    simp [save_turn]
  rw [← h, List.drop_left]

theorem gtv_after_player_save_boundary (env : Env) (ledger : List Turn)
    (uid : Nat) (input : String)
    (hb : (env.analyst (load_conversation_history ledger) input).boundary = some 1) :
    get_total_violations (save_turn ledger (corePlayerTurn env ledger uid input)) =
      get_total_violations ledger + 1 := by
  rw [save_turn, get_total_violations_append]
  simp [corePlayerTurn, boundaryFlagged, hb]

theorem gtv_after_player_save_clean (env : Env) (ledger : List Turn)
    (uid : Nat) (input : String)
    (hb : (env.analyst (load_conversation_history ledger) input).boundary ≠ some 1) :
    get_total_violations (save_turn ledger (corePlayerTurn env ledger uid input)) =
      get_total_violations ledger := by
  rw [save_turn, get_total_violations_append]
  simp [corePlayerTurn, boundaryFlagged, hb]

theorem coreStep_boundary (env : Env) (db : Db) (ledger : List Turn)
    (uid sid : Nat) (input : String) (sc : Scenario)
    (hb : (env.analyst (load_conversation_history ledger) input).boundary = some 1) :
    coreStep env db ledger uid sid input sc =
      boundaryStep env db sc (load_conversation_history ledger)
        (env.analyst (load_conversation_history ledger) input) input sid
        (get_current_turn ledger + 1) (get_total_violations ledger + 1) := by
  unfold coreStep
  rw [handle_of_boundary _ _ _ _ _ _ _ _ _ hb,
    gtv_after_player_save_boundary env ledger uid input hb]

theorem coreStep_clean (env : Env) (db : Db) (ledger : List Turn)
    (uid sid : Nat) (input : String) (sc : Scenario)
    (hb : (env.analyst (load_conversation_history ledger) input).boundary ≠ some 1) :
    coreStep env db ledger uid sid input sc =
      dispatchRoute env db sc (load_conversation_history ledger)
        (applyGoal (applyAftereffect
          (env.analyst (load_conversation_history ledger) input)
          (get_total_violations ledger)))
        input sid (get_current_turn ledger + 1) := by
  unfold coreStep
  rw [handle_of_clean _ _ _ _ _ _ _ _ _ hb,
    gtv_after_player_save_clean env ledger uid input hb]

theorem pick_mem (rand : Nat → Nat) (l : List PreRec) (r : PreRec)
    (h : pick rand l = some r) : r ∈ l := by
  unfold pick at h
  cases l with
  | nil => exact absurd h (by simp)
  | cons a as => exact List.get?_mem h

theorem pick_some (rand : Nat → Nat) (l : List PreRec) (h : l ≠ []) :
    ∃ r, pick rand l = some r ∧ r ∈ l := by
  cases l with
  | nil => exact absurd rfl h
  | cons a as =>
    have hlt : rand (a :: as).length % (a :: as).length < (a :: as).length :=
      Nat.mod_lt _ (by simp)
    refine ⟨(a :: as).get ⟨_, hlt⟩, ?_, List.get_mem _ _ _⟩
    unfold pick
    exact List.get?_eq_get hlt

theorem pick_nil (rand : Nat → Nat) : pick rand [] = none := rfl

theorem get_save (ledger : List Turn) (t : Turn) (ts : List Turn) :
    (save_turn ledger t ++ ts).get? ledger.length = some t := by
  rw [save_turn, List.append_assoc, List.get?_eq_getElem?,
    List.getElem?_append_right (le_refl _)]
  simp

theorem goalIn775_of_goalIs (p : AnalystOut) (h : goalIs p = true) :
    goalIn775 p = true := by
  simp [goalIn775, h]

theorem goalIs_eq_of_field (p q : AnalystOut)
    (h : p.goal_achieved = q.goal_achieved) : goalIs p = goalIs q := by
  simp [goalIs, h]

theorem goalIn775_eq_of_field (p q : AnalystOut)
    (h : p.goal_achieved = q.goal_achieved) : goalIn775 p = goalIn775 q := by
  simp [goalIn775, goalIs, h]

/-! ### Claim theorems -/

/-- C7: the boundary-violation count used by the orchestrator is recomputed
from the Turn Ledger by `get_total_violations` and always equals the count
of player turns whose stored classification flagged `boundary = 1`
(`ledgerBoundaryCount`); appending a turn moves the recomputed count by one
exactly when the turn is such a player turn, so the equality holds after any
number of turns — no separately stored counter is involved. -/
theorem C7_violations_recomputed (ledger : List Turn) :
    get_total_violations ledger = ledgerBoundaryCount ledger ∧
    ∀ t : Turn, get_total_violations (save_turn ledger t) =
      get_total_violations ledger +
        (if t.speaker == Speaker.player && boundaryFlagged t then 1 else 0) := by
  refine ⟨get_total_violations_eq_count ledger, fun t => ?_⟩
  rw [save_turn]
  exact get_total_violations_append ledger t

/-- C6: with team membership and an active session, a turn submission whose
current player-turn count is 8 or more fails with `TurnLimitReached`,
appends nothing and never reaches the classifier; a count below 8 never
yields that error; and the preconditions run in the order membership,
session-active, turn-limit (an earlier failure wins regardless of the
later conditions). -/
theorem C6_turn_limit (env : Env) (db : Db) (ledger : List Turn)
    (uid sid : Nat) (input : String) :
    (env.player = none →
      (send_text env db ledger uid sid input).resp = .error .unauthorized ∧
      (send_text env db ledger uid sid input).ledger = ledger) ∧
    (∀ p : PlayerInfo, env.player = some p → p.session_status ≠ "active" →
      (send_text env db ledger uid sid input).resp = .error .sessionNotActive ∧
      (send_text env db ledger uid sid input).ledger = ledger) ∧
    (∀ p : PlayerInfo, env.player = some p → p.session_status = "active" →
      8 ≤ get_current_turn ledger →
      (send_text env db ledger uid sid input).resp = .error .turnLimitReached ∧
      (send_text env db ledger uid sid input).ledger = ledger ∧
      (send_text env db ledger uid sid input).classifierCalls = 0) ∧
    (∀ p : PlayerInfo, env.player = some p → p.session_status = "active" →
      get_current_turn ledger < 8 →
      (send_text env db ledger uid sid input).resp ≠ .error .turnLimitReached) := by
  refine ⟨?_, ?_, ?_, ?_⟩
  · intro h
    unfold send_text
    rw [h]
    exact ⟨rfl, rfl⟩
  · intro p hp hs
    unfold send_text
    rw [hp]
    simp [hs]
  · intro p hp hs h8
    unfold send_text
    rw [hp]
    simp [hs, h8]
  · intro p hp hs hlt
    cases hsc : env.scenario with
    | none =>
      unfold send_text
      rw [hp, hsc]
      simp [hs, Nat.not_le.mpr hlt]
    | some sc =>
      rw [send_text_eq_core env db ledger uid sid input p sc hp hs hlt hsc]
      simp [send_text_core]

/-- C6 witness: a 9th submission (eight player turns already on the ledger)
with valid membership and an active session fails with `TurnLimitReached`,
leaves the ledger untouched and never calls the classifier. -/
theorem C6_turn_limit_witness :
    (send_text (mkEnv pPre) dbEmpty fullLedger 10 7 "안녕하세요").resp =
        .error .turnLimitReached ∧
      (send_text (mkEnv pPre) dbEmpty fullLedger 10 7 "안녕하세요").ledger = fullLedger ∧
      (send_text (mkEnv pPre) dbEmpty fullLedger 10 7 "안녕하세요").classifierCalls = 0 :=
  (C6_turn_limit (mkEnv pPre) dbEmpty fullLedger 10 7 "안녕하세요").2.2.1
    wPlayer rfl rfl (by decide)

/-- C5: when the recomputed violation count at the start of the turn is at
least 4 and the classifier flags `boundary = 1`, the NPC turn is produced by
the renderer (Generated route, one renderer call) under the explicit
end-the-conversation direction with the annoyed emotion, and it is recorded
as a terminal `[EXIT]` event with `is_exit = true` in the response. -/
theorem C5_exit_tier (env : Env) (db : Db) (ledger : List Turn)
    (uid sid : Nat) (input : String) (p : PlayerInfo) (sc : Scenario)
    (hp : env.player = some p) (hs : p.session_status = "active")
    (hlim : get_current_turn ledger < 8) (hsc : env.scenario = some sc)
    (hb : (env.analyst (load_conversation_history ledger) input).boundary = some 1)
    (hv : 4 ≤ get_total_violations ledger) :
    ((send_text env db ledger uid sid input).resp.toOption.map SendOk.is_exit =
      some true) ∧
    (send_text env db ledger uid sid input).rendererCalls = 1 ∧
    ((send_text env db ledger uid sid input).resp.toOption.map
        (fun r => r.analyst_response.direction) =
      some (some (exitDirection (get_total_violations ledger + 1)))) ∧
    ((send_text env db ledger uid sid input).resp.toOption.map
        (fun r => r.analyst_response.main_emotion) = some (some "불쾌")) ∧
    (((send_text env db ledger uid sid input).ledger.drop (ledger.length + 1)).map
        Turn.message_text = [some "[EXIT]"]) := by
  rw [send_text_eq_core env db ledger uid sid input p sc hp hs hlim hsc]
  obtain ⟨h1, h2, h3, h4, h5, h6⟩ :=
    boundaryStep_exit_spec env db sc (load_conversation_history ledger)
      (env.analyst (load_conversation_history ledger) input) input sid
      (get_current_turn ledger + 1) (get_total_violations ledger + 1) (by omega)
  simp only [send_text_core, coreStep_boundary env db ledger uid sid input sc hb]
  refine ⟨?_, h2, ?_, ?_, ?_⟩
  · simp [Except.toOption, h1]
  · simp [Except.toOption, h3]
  · simp [Except.toOption, h3]
  · rw [drop_save, h4]

/-- C5 witness: with four prior flagged player turns and a fifth flagged
utterance, the call produces a rendered Exit turn with the
end-the-conversation direction. -/
theorem C5_exit_tier_witness :
    ((send_text (mkEnv pBound) dbEmpty ledger4 10 7 "외국어").resp.toOption.map
        SendOk.is_exit = some true) ∧
    (send_text (mkEnv pBound) dbEmpty ledger4 10 7 "외국어").rendererCalls = 1 ∧
    ((send_text (mkEnv pBound) dbEmpty ledger4 10 7 "외국어").resp.toOption.map
        (fun r => r.analyst_response.direction) =
      some (some (exitDirection (get_total_violations ledger4 + 1)))) ∧
    ((send_text (mkEnv pBound) dbEmpty ledger4 10 7 "외국어").resp.toOption.map
        (fun r => r.analyst_response.main_emotion) = some (some "불쾌")) ∧
    (((send_text (mkEnv pBound) dbEmpty ledger4 10 7 "외국어").ledger.drop
        (ledger4.length + 1)).map Turn.message_text = [some "[EXIT]"]) :=
  C5_exit_tier (mkEnv pBound) dbEmpty ledger4 10 7 "외국어" wPlayer wScenario
    rfl rfl (by decide) rfl rfl (by decide)

/-- C1 counterexample: with exactly three boundary violations recomputed
from the ledger before the turn and `boundary = 1` on the current turn, the
code produces the tier-2 Exit — `is_exit = true`, an `[EXIT]`-marked NPC
turn, and the end-the-conversation direction built from the count 4 that
includes the current turn — not the tier-1 clarification turn the claim
requires ("not an Exit"). -/
theorem C1_counterexample :
    get_total_violations ledger3 = 3 ∧
    ((send_text (mkEnv pBound) dbEmpty ledger3 10 7 "외국어만").resp.toOption.map
        SendOk.is_exit = some true) ∧
    ((send_text (mkEnv pBound) dbEmpty ledger3 10 7 "외국어만").resp.toOption.map
        (fun r => r.analyst_response.direction) = some (some (exitDirection 4))) ∧
    (((send_text (mkEnv pBound) dbEmpty ledger3 10 7 "외국어만").ledger.drop 7).map
        Turn.message_text = [some "[EXIT]"]) :=
  ⟨rfl, rfl, rfl, rfl⟩

/-- C1 (amended): the escalation tier is keyed to the violation count
recomputed from the ledger after the current player turn is saved, i.e. the
count including the current turn.  When that count is 3 — two prior
violations plus the current one — and `boundary = 1`, the NPC turn uses the
Generated route (one renderer call) with the
clarification/restatement/goal-reference direction and the annoyed emotion;
it is neither the canned boundary category nor an Exit.  The tier-2 check
(`>= 4`) still precedes tier 1 (`>= 3`), which precedes tier 0, over that
same including-current count. -/
theorem C1_tier1_amended (env : Env) (db : Db) (ledger : List Turn)
    (uid sid : Nat) (input : String) (p : PlayerInfo) (sc : Scenario)
    (hp : env.player = some p) (hs : p.session_status = "active")
    (hlim : get_current_turn ledger < 8) (hsc : env.scenario = some sc)
    (hb : (env.analyst (load_conversation_history ledger) input).boundary = some 1)
    (hv : get_total_violations ledger = 2) :
    ((send_text env db ledger uid sid input).resp.toOption.map SendOk.is_exit =
      some false) ∧
    (send_text env db ledger uid sid input).rendererCalls = 1 ∧
    ((send_text env db ledger uid sid input).resp.toOption.map
        (fun r => r.analyst_response.direction) =
      some (some (boundaryDynDirection 3))) ∧
    ((send_text env db ledger uid sid input).resp.toOption.map
        (fun r => r.analyst_response.main_emotion) = some (some "불쾌")) ∧
    (((send_text env db ledger uid sid input).ledger.drop (ledger.length + 1)).map
        Turn.message_text = [none]) := by
  have h3 : get_total_violations ledger + 1 = 3 := by omega
  rw [send_text_eq_core env db ledger uid sid input p sc hp hs hlim hsc]
  obtain ⟨h1, h2, hpar, h4, h5, h6⟩ :=
    boundaryStep_bdyn_spec env db sc (load_conversation_history ledger)
      (env.analyst (load_conversation_history ledger) input) input sid
      (get_current_turn ledger + 1) (get_total_violations ledger + 1)
      (by omega) (by omega)
  simp only [send_text_core, coreStep_boundary env db ledger uid sid input sc hb]
  refine ⟨?_, h2, ?_, ?_, ?_⟩
  · simp [Except.toOption, h1]
  · rw [h3] at hpar
    simp [Except.toOption, h3, hpar]
  · simp [Except.toOption, hpar]
  · rw [drop_save, h4]

/-- C1 witness: with two prior violations and a third flagged utterance the
call yields the tier-1 boundary DYN turn (renderer called, direction keyed
to the including-current count 3, no marker, no exit). -/
theorem C1_tier1_witness :
    ((send_text (mkEnv pBound) dbEmpty ledger2 10 7 "이상한말").resp.toOption.map
        SendOk.is_exit = some false) ∧
    (send_text (mkEnv pBound) dbEmpty ledger2 10 7 "이상한말").rendererCalls = 1 ∧
    ((send_text (mkEnv pBound) dbEmpty ledger2 10 7 "이상한말").resp.toOption.map
        (fun r => r.analyst_response.direction) =
      some (some (boundaryDynDirection 3))) ∧
    ((send_text (mkEnv pBound) dbEmpty ledger2 10 7 "이상한말").resp.toOption.map
        (fun r => r.analyst_response.main_emotion) = some (some "불쾌")) ∧
    (((send_text (mkEnv pBound) dbEmpty ledger2 10 7 "이상한말").ledger.drop
        (ledger2.length + 1)).map Turn.message_text = [none]) :=
  C1_tier1_amended (mkEnv pBound) dbEmpty ledger2 10 7 "이상한말" wPlayer wScenario
    rfl rfl (by decide) rfl rfl (by decide)

/-- C2 counterexample: when the classifier output is unparseable the code
performs exactly one classifier call (no retry), surfaces no
`ClassificationFailed`-style error — the request reports success — and the
player turn, carrying the parse_error record, IS appended to the ledger. -/
theorem C2_counterexample :
    (send_text (mkEnv pErr) dbEmpty [] 10 7 "ciao").classifierCalls = 1 ∧
    (∃ r, (send_text (mkEnv pErr) dbEmpty [] 10 7 "ciao").resp = .ok r) ∧
    ((send_text (mkEnv pErr) dbEmpty [] 10 7 "ciao").ledger.map Turn.speaker =
      [Speaker.player]) ∧
    ((send_text (mkEnv pErr) dbEmpty [] 10 7 "ciao").ledger.map Turn.analyst_json =
      [some pErr]) :=
  ⟨rfl, ⟨_, rfl⟩, rfl, rfl⟩

/-- C2 (amended): a malformed/unparseable classification is not retried —
the classifier runs exactly once per request — and no error is surfaced:
the request returns success with no NPC line, the player turn carrying the
parse_error record is appended, and no NPC turn is appended and no renderer
call is made; a resubmission therefore DOES duplicate the utterance in the
history. -/
theorem C2_no_retry_no_npc_turn (env : Env) (db : Db) (ledger : List Turn)
    (uid sid : Nat) (input : String) (p : PlayerInfo) (sc : Scenario)
    (hp : env.player = some p) (hs : p.session_status = "active")
    (hlim : get_current_turn ledger < 8) (hsc : env.scenario = some sc)
    (hm : env.analyst (load_conversation_history ledger) input =
      { parse_error := true }) :
    (send_text env db ledger uid sid input).classifierCalls = 1 ∧
    (send_text env db ledger uid sid input).rendererCalls = 0 ∧
    (∃ r, (send_text env db ledger uid sid input).resp = .ok r ∧
      r.actor_line = none ∧ r.pre_transcript = none) ∧
    (send_text env db ledger uid sid input).ledger =
      ledger ++ [{ turn_number := get_current_turn ledger + 1,
                   speaker := .player, message_text := some input,
                   player_user_id := some uid,
                   analyst_json := some { parse_error := true } }] := by
  have hb : (env.analyst (load_conversation_history ledger) input).boundary ≠ some 1 := by
    rw [hm]
    simp
  rw [send_text_eq_core env db ledger uid sid input p sc hp hs hlim hsc]
  simp only [send_text_core, coreStep_clean env db ledger uid sid input sc hb]
  rw [hm]
  have hae := applyAftereffect_fields { parse_error := true } (get_total_violations ledger)
  have hg : goalIs (applyAftereffect { parse_error := true }
      (get_total_violations ledger)) = false := by
    rw [goalIs_eq_of_field _ { parse_error := true } hae.2.2.2.1]
    rfl
  rw [applyGoal_of_not_goal _ hg]
  have hr1 : (applyAftereffect { parse_error := true }
      (get_total_violations ledger)).route ≠ some "PRE" := by
    rw [hae.1]
    simp
  have hr2 : (applyAftereffect { parse_error := true }
      (get_total_violations ledger)).route ≠ some "DYN" := by
    rw [hae.1]
    simp
  rw [dispatchRoute_none _ _ _ _ _ _ _ _ hr1 hr2]
  refine ⟨trivial, rfl, ⟨_, rfl, rfl, rfl⟩, ?_⟩
  simp [save_turn, corePlayerTurn, hm]

/-- C2 witness: a concrete unparseable-classifier request — one classifier
call, success reported, the player turn appended with the parse_error
record, no NPC turn. -/
theorem C2_no_retry_witness :
    (send_text (mkEnv pErr) dbEmpty [] 10 7 "빠르게").classifierCalls = 1 ∧
    (send_text (mkEnv pErr) dbEmpty [] 10 7 "빠르게").rendererCalls = 0 ∧
    (∃ r, (send_text (mkEnv pErr) dbEmpty [] 10 7 "빠르게").resp = .ok r ∧
      r.actor_line = none ∧ r.pre_transcript = none) ∧
    (send_text (mkEnv pErr) dbEmpty [] 10 7 "빠르게").ledger =
      [] ++ [{ turn_number := get_current_turn [] + 1,
               speaker := .player, message_text := some "빠르게",
               player_user_id := some 10,
               analyst_json := some { parse_error := true } }] :=
  C2_no_retry_no_npc_turn (mkEnv pErr) dbEmpty [] 10 7 "빠르게" wPlayer wScenario
    rfl rfl (by decide) rfl rfl

/-- C3 counterexample: on a turn where the classifier reports
`goal_achieved = true` together with `boundary = 1` (tier 0, empty ledger),
the NPC turn is the canned `[BOUNDARY_PRE]` reaction — no renderer call,
the classifier's direction untouched, and the response reports
`goal_achieved = false` — so the goal signal neither forces the Generated
route nor is checked at all on boundary turns. -/
theorem C3_counterexample :
    goalIs pBoundGoal = true ∧
    (send_text (mkEnv pBoundGoal) dbEmpty [] 10 7 "주문이요").rendererCalls = 0 ∧
    (((send_text (mkEnv pBoundGoal) dbEmpty [] 10 7 "주문이요").ledger.drop 1).map
        Turn.message_text = [some "[BOUNDARY_PRE]"]) ∧
    ((send_text (mkEnv pBoundGoal) dbEmpty [] 10 7 "주문이요").resp.toOption.map
        SendOk.goal_achieved = some false) ∧
    ((send_text (mkEnv pBoundGoal) dbEmpty [] 10 7 "주문이요").resp.toOption.map
        (fun r => r.analyst_response.direction) = some none) :=
  ⟨rfl, rfl, rfl, rfl, rfl⟩

/-- C3 (amended): the goal-achievement override runs only on turns whose
boundary flag is not 1.  On such turns `goal_achieved = true` forces the
Generated route even over a canned proposal — one renderer call, the
closing-style direction merged in front of any existing direction, the
default `[warmly]` tag when none was supplied, and a `[GOAL_ACHIEVED]`
marker on the stored NPC turn.  On `boundary = 1` turns the goal signal is
ignored at every tier — the route field stays as classified and the
response reports `goal_achieved = false` — so the whole boundary policy
(tier-2 Exit included) takes precedence over the goal wording. -/
theorem C3_goal_override (env : Env) (db : Db) (ledger : List Turn)
    (uid sid : Nat) (input : String) (p : PlayerInfo) (sc : Scenario)
    (hp : env.player = some p) (hs : p.session_status = "active")
    (hlim : get_current_turn ledger < 8) (hsc : env.scenario = some sc) :
    ((env.analyst (load_conversation_history ledger) input).boundary ≠ some 1 →
      goalIs (env.analyst (load_conversation_history ledger) input) = true →
      (send_text env db ledger uid sid input).rendererCalls = 1 ∧
      ((send_text env db ledger uid sid input).resp.toOption.map
          (fun r => r.analyst_response.route) = some (some "DYN")) ∧
      (∃ rest, (send_text env db ledger uid sid input).resp.toOption.map
          (fun r => r.analyst_response.direction) =
        some (some (farewellDirection ++ rest))) ∧
      (optTruthy (env.analyst (load_conversation_history ledger) input).audio_tags
          = false →
        (send_text env db ledger uid sid input).resp.toOption.map
            (fun r => r.analyst_response.audio_tags) = some (some "[warmly]")) ∧
      (((send_text env db ledger uid sid input).ledger.drop (ledger.length + 1)).map
          Turn.message_text = [some "[GOAL_ACHIEVED]"])) ∧
    ((env.analyst (load_conversation_history ledger) input).boundary = some 1 →
      ((send_text env db ledger uid sid input).resp.toOption.map
          (fun r => r.analyst_response.route) =
        some (env.analyst (load_conversation_history ledger) input).route) ∧
      ((send_text env db ledger uid sid input).resp.toOption.map
          SendOk.goal_achieved = some false)) := by
  constructor
  · intro hb hg
    rw [send_text_eq_core env db ledger uid sid input p sc hp hs hlim hsc]
    simp only [send_text_core, coreStep_clean env db ledger uid sid input sc hb]
    have hae := applyAftereffect_fields
      (env.analyst (load_conversation_history ledger) input)
      (get_total_violations ledger)
    have hg1 : goalIs (applyAftereffect
        (env.analyst (load_conversation_history ledger) input)
        (get_total_violations ledger)) = true := by
      rw [goalIs_eq_of_field _ (env.analyst (load_conversation_history ledger) input)
        hae.2.2.2.1]
      exact hg
    obtain ⟨hroute, ⟨rest, hdir⟩, htagF, htagT, hgoalf, hcat⟩ :=
      applyGoal_of_goal (applyAftereffect
        (env.analyst (load_conversation_history ledger) input)
        (get_total_violations ledger)) hg1
    rw [dispatchRoute_dyn _ _ _ _ _ _ _ _ hroute]
    have hin : goalIn775 (applyGoal (applyAftereffect
        (env.analyst (load_conversation_history ledger) input)
        (get_total_violations ledger))) = true := by
      rw [goalIn775_eq_of_field _ (applyAftereffect
          (env.analyst (load_conversation_history ledger) input)
          (get_total_violations ledger)) hgoalf,
        goalIn775_eq_of_field _ (env.analyst (load_conversation_history ledger) input)
          hae.2.2.2.1]
      exact goalIn775_of_goalIs _ hg
    refine ⟨rfl, ?_, ⟨rest, ?_⟩, ?_, ?_⟩
    · simp [Except.toOption, hroute]
    · simp [Except.toOption, hdir]
    · intro htag
      have hw := htagF (by rw [hae.2.2.2.2.1]; exact htag)
      simp [Except.toOption, hw]
    · rw [drop_save]
      simp [hin]
  · intro hb
    rw [send_text_eq_core env db ledger uid sid input p sc hp hs hlim hsc]
    simp only [send_text_core, coreStep_boundary env db ledger uid sid input sc hb]
    by_cases h4 : 4 ≤ get_total_violations ledger + 1
    · obtain ⟨h1, h2, hpar, hmsg, hgo, hrt⟩ :=
        boundaryStep_exit_spec env db sc (load_conversation_history ledger)
          (env.analyst (load_conversation_history ledger) input) input sid
          (get_current_turn ledger + 1) (get_total_violations ledger + 1) h4
      constructor
      · simp [Except.toOption, hpar]
      · simp [Except.toOption, hgo]
    · by_cases h3 : 3 ≤ get_total_violations ledger + 1
      · obtain ⟨h1, h2, hpar, hmsg, hgo, hrt⟩ :=
          boundaryStep_bdyn_spec env db sc (load_conversation_history ledger)
            (env.analyst (load_conversation_history ledger) input) input sid
            (get_current_turn ledger + 1) (get_total_violations ledger + 1) h4 h3
        constructor
        · simp [Except.toOption, hpar]
        · simp [Except.toOption, hgo]
      · obtain ⟨h1, h2, hpar, hmsg, htr, hurl, hgo, hrt⟩ :=
          boundaryStep_bpre_spec env db sc (load_conversation_history ledger)
            (env.analyst (load_conversation_history ledger) input) input sid
            (get_current_turn ledger + 1) (get_total_violations ledger + 1)
            (by omega)
        constructor
        · simp [Except.toOption, hpar]
        · simp [Except.toOption, hgo]

/-- C3 witness: a clean turn with `goal_achieved = true` and a canned
proposal is overridden to the Generated route with the closing direction,
default warm tag and `[GOAL_ACHIEVED]` marker. -/
theorem C3_goal_override_witness :
    (send_text (mkEnv pGoal) dbEmpty [] 10 7 "결제할게요").rendererCalls = 1 ∧
    ((send_text (mkEnv pGoal) dbEmpty [] 10 7 "결제할게요").resp.toOption.map
        (fun r => r.analyst_response.route) = some (some "DYN")) ∧
    (∃ rest, (send_text (mkEnv pGoal) dbEmpty [] 10 7 "결제할게요").resp.toOption.map
        (fun r => r.analyst_response.direction) =
      some (some (farewellDirection ++ rest))) ∧
    (optTruthy pGoal.audio_tags = false →
      (send_text (mkEnv pGoal) dbEmpty [] 10 7 "결제할게요").resp.toOption.map
          (fun r => r.analyst_response.audio_tags) = some (some "[warmly]")) ∧
    (((send_text (mkEnv pGoal) dbEmpty [] 10 7 "결제할게요").ledger.drop
        (List.length ([] : List Turn) + 1)).map
        Turn.message_text = [some "[GOAL_ACHIEVED]"]) :=
  (C3_goal_override (mkEnv pGoal) dbEmpty [] 10 7 "결제할게요" wPlayer wScenario
    rfl rfl (by decide) rfl).1 (by decide) rfl

/-- C4 counterexample: a call that reports success (classifier clean but
returning no recognizable route) appends the player turn and NO NPC turn,
refuting "exactly one NPC Turn per successful call". -/
theorem C4_counterexample :
    (∃ r, (send_text (mkEnv pNoRoute) dbEmpty [] 10 7 "무슨말").resp = .ok r) ∧
    ((send_text (mkEnv pNoRoute) dbEmpty [] 10 7 "무슨말").ledger.map Turn.speaker =
      [Speaker.player]) ∧
    (send_text (mkEnv pNoRoute) dbEmpty [] 10 7 "무슨말").rendererCalls = 0 :=
  ⟨⟨_, rfl⟩, rfl, rfl⟩

/-- C4 (amended): every successful call appends exactly one player turn —
placed before any NPC rows and carrying the original classification — and
at most one NPC turn (zero exactly when the clean-path classification is
unroutable, e.g. after a parse failure); per request the classifier runs
exactly once, the renderer at most once, and canned resolutions (tier-0
boundary PRE and the catalog PRE route) make no renderer call. -/
theorem C4_appends_and_call_bounds (env : Env) (db : Db) (ledger : List Turn)
    (uid sid : Nat) (input : String) (p : PlayerInfo) (sc : Scenario)
    (hp : env.player = some p) (hs : p.session_status = "active")
    (hlim : get_current_turn ledger < 8) (hsc : env.scenario = some sc) :
    (send_text env db ledger uid sid input).classifierCalls = 1 ∧
    (send_text env db ledger uid sid input).rendererCalls ≤ 1 ∧
    (∃ npcs, (send_text env db ledger uid sid input).ledger =
        ledger ++ corePlayerTurn env ledger uid input :: npcs ∧
      npcs.length ≤ 1 ∧ ∀ t ∈ npcs, t.speaker = Speaker.npc) ∧
    ((send_text env db ledger uid sid input).routeTaken = RouteTaken.boundaryPre ∨
      (send_text env db ledger uid sid input).routeTaken = RouteTaken.prePath →
      (send_text env db ledger uid sid input).rendererCalls = 0) := by
  rw [send_text_eq_core env db ledger uid sid input p sc hp hs hlim hsc]
  simp only [send_text_core, coreStep]
  obtain ⟨hlen, hspk, hact, hppre⟩ :=
    handle_shape env db sc (load_conversation_history ledger)
      (save_turn ledger (corePlayerTurn env ledger uid input))
      (env.analyst (load_conversation_history ledger) input) input sid
      (get_current_turn ledger + 1)
  refine ⟨trivial, hact, ⟨_, ?_, hlen, hspk⟩, hppre⟩
  simp [save_turn]

/-- C4 witness: a concrete canned-route call — one classifier call, no
renderer call, the player turn followed by one NPC turn. -/
theorem C4_appends_witness :
    (send_text (mkEnv pPre) dbEmpty [] 10 7 "메뉴판 주세요").classifierCalls = 1 ∧
    (send_text (mkEnv pPre) dbEmpty [] 10 7 "메뉴판 주세요").rendererCalls ≤ 1 ∧
    (∃ npcs, (send_text (mkEnv pPre) dbEmpty [] 10 7 "메뉴판 주세요").ledger =
        [] ++ corePlayerTurn (mkEnv pPre) [] 10 "메뉴판 주세요" :: npcs ∧
      npcs.length ≤ 1 ∧ ∀ t ∈ npcs, t.speaker = Speaker.npc) ∧
    ((send_text (mkEnv pPre) dbEmpty [] 10 7 "메뉴판 주세요").routeTaken =
        RouteTaken.boundaryPre ∨
      (send_text (mkEnv pPre) dbEmpty [] 10 7 "메뉴판 주세요").routeTaken =
        RouteTaken.prePath →
      (send_text (mkEnv pPre) dbEmpty [] 10 7 "메뉴판 주세요").rendererCalls = 0) :=
  C4_appends_and_call_bounds (mkEnv pPre) dbEmpty [] 10 7 "메뉴판 주세요"
    wPlayer wScenario rfl rfl (by decide) rfl

/-- C8 counterexample: an ordinary canned-route turn whose scenario+category
catalog is empty gets NO fallback — the shared `boundary_pre` pool row that
exists in the database is not consulted, no fixed default line is used, and
the stored NPC line is NULL while the marker is kept. -/
theorem C8_counterexample :
    preRows dbShared 7 "menu" = [] ∧
    boundaryPool dbShared ≠ [] ∧
    ((send_text (mkEnv pPre) dbShared [] 10 7 "메뉴").resp.toOption.map
        (fun r => r.pre_transcript) = some none) ∧
    (((send_text (mkEnv pPre) dbShared [] 10 7 "메뉴").ledger.drop 1).map
        Turn.actor_line = [none]) ∧
    (((send_text (mkEnv pPre) dbShared [] 10 7 "메뉴").ledger.drop 1).map
        Turn.message_text = [some "[PRE:menu]"]) :=
  ⟨rfl, by decide, rfl, rfl, rfl⟩

/-- C8 (amended): an ordinary canned resolution takes the
`get_pre_audio_url` selection for the scenario and resolved category —
a random variant, preferring rows with audio, with NO further fallback, so
an empty catalog yields a NULL line — and makes no renderer call.  The
fallback chain (shared cross-scenario `boundary_pre` pool, then the fixed
literal line) exists only on the tier-0 boundary canned path.  The
selection really draws from the catalog rows of the requested category. -/
theorem C8_canned_selection (env : Env) (db : Db) (ledger : List Turn)
    (uid sid : Nat) (input : String) (p : PlayerInfo) (sc : Scenario)
    (hp : env.player = some p) (hs : p.session_status = "active")
    (hlim : get_current_turn ledger < 8) (hsc : env.scenario = some sc) :
    ((env.analyst (load_conversation_history ledger) input).boundary ≠ some 1 →
      goalIs (env.analyst (load_conversation_history ledger) input) = false →
      (env.analyst (load_conversation_history ledger) input).route = some "PRE" →
      (send_text env db ledger uid sid input).rendererCalls = 0 ∧
      (send_text env db ledger uid sid input).ledger.drop (ledger.length + 1) =
        [{ turn_number := get_current_turn ledger + 1, speaker := .npc,
           message_text := some ("[PRE:" ++
             (env.analyst (load_conversation_history ledger) input).category.getD ""
             ++ "]"),
           actor_line := (get_pre_audio_url env.rand db sid
             ((env.analyst (load_conversation_history ledger) input).category.getD "")).2,
           pre_audio_url := (get_pre_audio_url env.rand db sid
             ((env.analyst (load_conversation_history ledger) input).category.getD "")).1 }]) ∧
    ((env.analyst (load_conversation_history ledger) input).boundary = some 1 →
      get_total_violations ledger + 1 < 3 →
      (send_text env db ledger uid sid input).rendererCalls = 0 ∧
      (send_text env db ledger uid sid input).ledger.drop (ledger.length + 1) =
        [{ turn_number := get_current_turn ledger + 1, speaker := .npc,
           message_text := some "[BOUNDARY_PRE]",
           actor_line := some (orEl (boundaryPrePair env db sid).2 "네?"),
           pre_audio_url := (boundaryPrePair env db sid).1 }]) ∧
    (∀ sid2 : Nat, ∀ cat : String,
      (preRowsWithUrl db sid2 cat ≠ [] →
        ∃ r ∈ preRowsWithUrl db sid2 cat,
          get_pre_audio_url env.rand db sid2 cat = (r.cloudflare_url, r.transcript)) ∧
      (preRowsWithUrl db sid2 cat = [] → preRows db sid2 cat ≠ [] →
        ∃ r ∈ preRows db sid2 cat,
          get_pre_audio_url env.rand db sid2 cat = (none, r.transcript)) ∧
      (preRowsWithUrl db sid2 cat = [] → preRows db sid2 cat = [] →
        get_pre_audio_url env.rand db sid2 cat = (none, none))) ∧
    (boundaryPool db = [] → get_boundary_pre env.rand db = (none, some "네?")) := by
  refine ⟨?_, ?_, ?_, ?_⟩
  · intro hb hg hr
    rw [send_text_eq_core env db ledger uid sid input p sc hp hs hlim hsc]
    simp only [send_text_core, coreStep_clean env db ledger uid sid input sc hb]
    have hae := applyAftereffect_fields
      (env.analyst (load_conversation_history ledger) input)
      (get_total_violations ledger)
    have hg1 : goalIs (applyAftereffect
        (env.analyst (load_conversation_history ledger) input)
        (get_total_violations ledger)) = false := by
      rw [goalIs_eq_of_field _ (env.analyst (load_conversation_history ledger) input)
        hae.2.2.2.1]
      exact hg
    rw [applyGoal_of_not_goal _ hg1]
    have hr1 : (applyAftereffect
        (env.analyst (load_conversation_history ledger) input)
        (get_total_violations ledger)).route = some "PRE" := by
      rw [hae.1]
      exact hr
    rw [dispatchRoute_pre _ _ _ _ _ _ _ _ hr1]
    refine ⟨rfl, ?_⟩
    rw [drop_save]
    simp [hae.2.1]
  · intro hb hv
    rw [send_text_eq_core env db ledger uid sid input p sc hp hs hlim hsc]
    simp only [send_text_core, coreStep_boundary env db ledger uid sid input sc hb]
    obtain ⟨h1, h2, hpar, hturns, htr, hurl, hgo, hrt⟩ :=
      boundaryStep_bpre_spec env db sc (load_conversation_history ledger)
        (env.analyst (load_conversation_history ledger) input) input sid
        (get_current_turn ledger + 1) (get_total_violations ledger + 1) hv
    refine ⟨h2, ?_⟩
    rw [drop_save, hturns]
  · intro sid2 cat
    refine ⟨?_, ?_, ?_⟩
    · intro h
      obtain ⟨r, hrp, hrm⟩ := pick_some env.rand _ h
      refine ⟨r, hrm, ?_⟩
      unfold get_pre_audio_url
      rw [hrp]
    · intro h1 h2
      obtain ⟨r, hrp, hrm⟩ := pick_some env.rand _ h2
      refine ⟨r, hrm, ?_⟩
      unfold get_pre_audio_url
      rw [h1, pick_nil, hrp]
    · intro h1 h2
      unfold get_pre_audio_url
      rw [h1, h2, pick_nil]
  · intro hpool
    unfold get_boundary_pre
    rw [hpool, pick_nil]

/-- C8 witness: with one catalog row for (scenario 7, `menu`) the canned
route stores that selection and makes no renderer call. -/
theorem C8_canned_selection_witness :
    (send_text (mkEnv pPre) dbCat [] 10 7 "메뉴 주세요").rendererCalls = 0 ∧
    (send_text (mkEnv pPre) dbCat [] 10 7 "메뉴 주세요").ledger.drop
        (List.length ([] : List Turn) + 1) =
      [{ turn_number := get_current_turn [] + 1, speaker := .npc,
         message_text := some ("[PRE:" ++
           ((mkEnv pPre).analyst (load_conversation_history []) "메뉴 주세요").category.getD ""
           ++ "]"),
         actor_line := (get_pre_audio_url (mkEnv pPre).rand dbCat 7
           (((mkEnv pPre).analyst (load_conversation_history []) "메뉴 주세요").category.getD "")).2,
         pre_audio_url := (get_pre_audio_url (mkEnv pPre).rand dbCat 7
           (((mkEnv pPre).analyst (load_conversation_history []) "메뉴 주세요").category.getD "")).1 }] :=
  (C8_canned_selection (mkEnv pPre) dbCat [] 10 7 "메뉴 주세요" wPlayer wScenario
    rfl rfl (by decide) rfl).1 (by decide) rfl rfl

/-- C9 counterexample: an NPC row whose `actor_line` is NULL (the shape a
canned turn writes when its catalog is empty) puts its synthetic marker
text into the reconstructed history, so markers are not always excluded
from the history shown to the generative stages. -/
theorem C9_counterexample :
    mTurn.speaker = Speaker.npc ∧
    mTurn.message_text = some "[PRE:menu]" ∧
    load_conversation_history [mTurn] = [⟨"npc", "[PRE:menu]"⟩] :=
  ⟨rfl, rfl, rfl⟩

/-- C9 (amended): the reconstructed history has one entry per ledger row in
order; player rows carry their utterance (`message_text or ''`) and NPC
rows carry `actor_line or message_text or ''`.  Synthetic markers are
excluded exactly when a non-empty line was stored: an NPC row with a
non-empty `actor_line` contributes that line (the marker stays only in the
ledger), while a row whose stored line is NULL or empty leaks its marker
into the history. -/
theorem C9_history_reconstruction (ledger : List Turn) :
    load_conversation_history ledger = ledger.map histEntryTotal ∧
    (∀ t : Turn, t.speaker = Speaker.player →
      histEntryTotal t = ⟨"player", orEl t.message_text ""⟩) ∧
    (∀ t : Turn, t.speaker = Speaker.npc → ∀ s : String, t.actor_line = some s →
      s ≠ "" → histEntryTotal t = ⟨"npc", s⟩) := by
  refine ⟨?_, ?_, ?_⟩
  · induction ledger with
    | nil => rfl
    | cons t ts ih =>
      unfold load_conversation_history at ih ⊢
      cases hsp : t.speaker <;>
        simp [List.filterMap_cons, histEntry, histEntryTotal, hsp, ih]
  · intro t h
    unfold histEntryTotal
    rw [h]
  · intro t h s hs hne
    unfold histEntryTotal
    rw [h, hs]
    simp [orEl, hne]

/-- C9 witness: the Exit-shaped NPC row (marker plus non-empty stored line)
contributes its line, not its `[EXIT]` marker, to the history. -/
theorem C9_history_witness :
    histEntryTotal eTurn = ⟨"npc", "그만 갈게요"⟩ :=
  (C9_history_reconstruction [eTurn]).2.2 eTurn rfl "그만 갈게요" rfl (by decide)

/-- C10: the classification record stored with the player turn is the
classifier's original decision: the player row is serialized and appended
before the escalation/goal policies mutate the decision record.  Even on a
turn where the Exit policy rewrites direction, emotion and audio tags in
the record returned to the caller, the ledger's player row still carries
the unmutated classifier output. -/
theorem C10_player_record_original (env : Env) (db : Db) (ledger : List Turn)
    (uid sid : Nat) (input : String) (p : PlayerInfo) (sc : Scenario)
    (hp : env.player = some p) (hs : p.session_status = "active")
    (hlim : get_current_turn ledger < 8) (hsc : env.scenario = some sc) :
    ((send_text env db ledger uid sid input).ledger.get? ledger.length =
      some (corePlayerTurn env ledger uid input)) ∧
    ((corePlayerTurn env ledger uid input).analyst_json =
      some (env.analyst (load_conversation_history ledger) input)) ∧
    ((env.analyst (load_conversation_history ledger) input).boundary = some 1 →
      4 ≤ get_total_violations ledger →
      (send_text env db ledger uid sid input).resp.toOption.map
          (fun r => r.analyst_response) =
        some { env.analyst (load_conversation_history ledger) input with
               direction := some (exitDirection (get_total_violations ledger + 1)),
               main_emotion := some "불쾌",
               audio_tags := some "[sigh][frustrated]" }) := by
  rw [send_text_eq_core env db ledger uid sid input p sc hp hs hlim hsc]
  refine ⟨?_, rfl, ?_⟩
  · simp only [send_text_core]
    exact get_save ledger _ _
  · intro hb hv
    obtain ⟨h1, h2, hpar, hmsg, hgo, hrt⟩ :=
      boundaryStep_exit_spec env db sc (load_conversation_history ledger)
        (env.analyst (load_conversation_history ledger) input) input sid
        (get_current_turn ledger + 1) (get_total_violations ledger + 1) (by omega)
    simp only [send_text_core, coreStep_boundary env db ledger uid sid input sc hb]
    simp [Except.toOption, hpar]

/-- C10 witness: a concrete Exit-tier request — the stored player row keeps
the original classifier record while the returned record carries the
rewritten exit direction. -/
theorem C10_player_record_witness :
    ((send_text (mkEnv pBound) dbEmpty ledger4 10 7 "흠").ledger.get?
        ledger4.length = some (corePlayerTurn (mkEnv pBound) ledger4 10 "흠")) ∧
    ((corePlayerTurn (mkEnv pBound) ledger4 10 "흠").analyst_json =
      some ((mkEnv pBound).analyst (load_conversation_history ledger4) "흠")) ∧
    (((mkEnv pBound).analyst (load_conversation_history ledger4) "흠").boundary =
        some 1 →
      4 ≤ get_total_violations ledger4 →
      (send_text (mkEnv pBound) dbEmpty ledger4 10 7 "흠").resp.toOption.map
          (fun r => r.analyst_response) =
        some { (mkEnv pBound).analyst (load_conversation_history ledger4) "흠" with
               direction := some (exitDirection (get_total_violations ledger4 + 1)),
               main_emotion := some "불쾌",
               audio_tags := some "[sigh][frustrated]" }) :=
  C10_player_record_original (mkEnv pBound) dbEmpty ledger4 10 7 "흠"
    wPlayer wScenario rfl rfl (by decide) rfl

end Roleplay
